import Mathlib

/-!
Verification of the grok-cli browser engine against its specification.

The definitions below are a shallow embedding of the TypeScript sources
(src/lib/browser.ts and src/lib/cookies.ts).  In-page scripts that the engine
evaluates over the live DOM become pure functions over snapshot structures
holding exactly the data those scripts inspect; the response-polling loop
becomes a fold over a finite list of poll observations; effectful handlers
become functions returning the list of actions they perform, with the outcome
of each external wait supplied as an oracle argument.
-/

namespace GrokCli

/-- Character-list prefix test used by the substring test below. -/
def listStartsWith : List Char → List Char → Bool
  | _, [] => true
  | [], _ :: _ => false
  | a :: as, b :: bs => a == b && listStartsWith as bs

/-- Character-list containment of a contiguous pattern. -/
def listContainsSeq (pat : List Char) : List Char → Bool
  | [] => pat.isEmpty
  | a :: rest => listStartsWith (a :: rest) pat || listContainsSeq pat rest

/-- Substring test, modelling the JavaScript String.prototype.includes. -/
def strIncludes (s pat : String) : Bool :=
  listContainsSeq pat.toList s.toList

/-- Closed enumeration of challenge kinds, from the ChallengeKind union type in
browser.ts (cloudflare-turnstile, cloudflare-challenge, arkose-funcaptcha,
recaptcha, hcaptcha, login-wall, none). -/
inductive ChallengeKind where
  | cloudflareTurnstile
  | cloudflareChallenge
  | arkoseFuncaptcha
  | recaptcha
  | hcaptcha
  | loginWall
  | none
  deriving DecidableEq

/-- String tag of each challenge kind, as the in-page classifier returns it. -/
def challengeName : ChallengeKind → String
  | .cloudflareTurnstile => "cloudflare-turnstile"
  | .cloudflareChallenge => "cloudflare-challenge"
  | .arkoseFuncaptcha => "arkose-funcaptcha"
  | .recaptcha => "recaptcha"
  | .hcaptcha => "hcaptcha"
  | .loginWall => "login-wall"
  | .none => "none"

/-- Snapshot of the DOM data inspected by the classifier script inside
detectChallenge (browser.ts lines 136-171): the page URL, title and body text,
and one Boolean per querySelector probe the script performs. -/
structure ChallengeDom where
  url : String
  title : String
  body : String
  /-- iframe with src containing challenges.cloudflare.com is present -/
  cfChallengesIframe : Bool
  /-- element with class containing cf-turnstile is present -/
  cfTurnstileClass : Bool
  /-- input named cf-turnstile-response is present -/
  cfTurnstileResponseInput : Bool
  /-- iframe with src containing arkoselabs.com is present -/
  arkoseIframe : Bool
  /-- iframe with src containing funcaptcha.com is present -/
  funcaptchaIframe : Bool
  /-- element with id FunCaptcha is present -/
  funCaptchaElem : Bool
  /-- element with id containing arkose is present -/
  arkoseIdElem : Bool
  /-- input named fc-token is present -/
  fcTokenInput : Bool
  /-- iframe with src containing recaptcha is present -/
  recaptchaIframe : Bool
  /-- element with class g-recaptcha is present -/
  gRecaptchaClass : Bool
  /-- element with a data-sitekey attribute is present -/
  dataSitekeyElem : Bool
  /-- iframe with src containing hcaptcha.com is present -/
  hcaptchaIframe : Bool
  /-- element with class h-captcha is present -/
  hCaptchaClass : Bool
  deriving DecidableEq

/-- Full-page interstitial marker: title contains Just a moment, or body text
contains Checking your browser (first group of checks in the classifier). -/
def interstitialMarker (d : ChallengeDom) : Bool :=
  strIncludes d.title "Just a moment" || strIncludes d.body "Checking your browser"

/-- Anti-bot widget markers (the cloudflare-turnstile group of probes). -/
def widgetMarker (d : ChallengeDom) : Bool :=
  d.cfChallengesIframe || d.cfTurnstileClass || d.cfTurnstileResponseInput

/-- App-specific puzzle markers (the arkose-funcaptcha group of probes). -/
def puzzleMarker (d : ChallengeDom) : Bool :=
  d.arkoseIframe || d.funcaptchaIframe || d.funCaptchaElem || d.arkoseIdElem || d.fcTokenInput

/-- Generic reCAPTCHA markers. -/
def recaptchaMarker (d : ChallengeDom) : Bool :=
  d.recaptchaIframe || d.gRecaptchaClass || d.dataSitekeyElem

/-- Generic hCaptcha markers. -/
def hcaptchaMarker (d : ChallengeDom) : Bool :=
  d.hcaptchaIframe || d.hCaptchaClass

/-- Login-redirect URL patterns (the login-wall group of checks). -/
def loginRedirectMarker (d : ChallengeDom) : Bool :=
  strIncludes d.url "x.com/login" || strIncludes d.url "twitter.com/login" ||
    strIncludes d.url "/i/flow/login" || strIncludes d.url "grok.com/login"

/-- The in-page classifier script of detectChallenge: a chain of checks where
the first matching group determines the result and none is the default.  The
marker functions above are verbatim groupings of the successive checks. -/
def evalChallengeScript (d : ChallengeDom) : ChallengeKind :=
  if interstitialMarker d then .cloudflareChallenge
  else if widgetMarker d then .cloudflareTurnstile
  else if puzzleMarker d then .arkoseFuncaptcha
  else if recaptchaMarker d then .recaptcha
  else if hcaptchaMarker d then .hcaptcha
  else if loginRedirectMarker d then .loginWall
  else .none

/-- Outcome of a Runtime.evaluate call over the remote-control channel: the
call can throw, return a result with no value, or return a value. -/
inductive EvalOutcome (α : Type) where
  | threw
  | noValue
  | value (a : α)

/-- detectChallenge (browser.ts lines 136-171): evaluates the classifier
script; a thrown evaluation is caught and yields none, and a missing result
value also defaults to none. -/
def detectChallenge : EvalOutcome ChallengeDom → ChallengeKind
  | .threw => .none
  | .noValue => .none
  | .value d => evalChallengeScript d

/-- Blank page snapshot: no markers present. -/
def blankChallengeDom : ChallengeDom :=
  { url := "about:blank", title := "", body := ""
    cfChallengesIframe := false, cfTurnstileClass := false
    cfTurnstileResponseInput := false, arkoseIframe := false
    funcaptchaIframe := false, funCaptchaElem := false, arkoseIdElem := false
    fcTokenInput := false, recaptchaIframe := false, gRecaptchaClass := false
    dataSitekeyElem := false, hcaptchaIframe := false, hCaptchaClass := false }

/-- Actions performed by the challenge handler, in order: verbose/progress
log lines, console warnings and messages, blocking console reads, sleeps, and
the waitForChallengeGone polling wait. -/
inductive BrowserAction where
  | logMsg (s : String)
  | warnMsg (s : String)
  | consoleMsg (s : String)
  | promptEnter (s : String)
  | sleepMs (n : Nat)
  | pollChallengeGone (timeoutMs : Nat)
  deriving DecidableEq

/-- handleChallenge (browser.ts lines 173-220) as an effect trace.  The
Boolean headless mirrors opts.headless; resolved is the oracle for the result
of the waitForChallengeGone 30s poll.  Returns the list of actions performed
and the error thrown, if any (only the login-wall branch throws). -/
def handleChallenge (kind : ChallengeKind) (headless : Bool) (resolved : Bool) :
    List BrowserAction × Option String :=
  match kind with
  | .none => ([], Option.none)
  | .cloudflareChallenge | .cloudflareTurnstile =>
    ([BrowserAction.logMsg ("[captcha] Cloudflare challenge detected (" ++ challengeName kind ++ ")")]
      ++ (if headless then
            [BrowserAction.warnMsg "Cloudflare challenge in headless mode — restart without --headless."]
          else
            [BrowserAction.logMsg "[captcha] Waiting up to 30s for Cloudflare to auto-pass..."])
      ++ [BrowserAction.pollChallengeGone 30000]
      ++ (if resolved then
            [BrowserAction.logMsg "[captcha] Cloudflare challenge passed"]
          else
            [BrowserAction.consoleMsg "Cloudflare challenge did not auto-pass. Please solve it in the browser window, then press Enter here.",
             BrowserAction.promptEnter "Press Enter after the challenge is solved: ",
             BrowserAction.logMsg "[captcha] Continuing after user confirmation"]),
     Option.none)
  | .arkoseFuncaptcha =>
    ([BrowserAction.consoleMsg "Arkose FunCaptcha detected (X.com security challenge)",
      BrowserAction.promptEnter "Press Enter after solving the captcha: ",
      BrowserAction.sleepMs 2000,
      BrowserAction.logMsg "[captcha] Continuing after Arkose FunCaptcha"],
     Option.none)
  | .recaptcha | .hcaptcha =>
    ([BrowserAction.consoleMsg
        ((if kind = ChallengeKind.recaptcha then "reCAPTCHA" else "hCaptcha")
          ++ " detected. Please solve it in the browser window, then press Enter here."),
      BrowserAction.promptEnter "Press Enter after solving the captcha: ",
      BrowserAction.sleepMs 1500,
      BrowserAction.logMsg "[captcha] Continuing after captcha solve"],
     Option.none)
  | .loginWall =>
    ([BrowserAction.consoleMsg "Redirected to login page."],
     Option.some "Redirected to login page — cookies missing or expired")

/-- State signals read from a mode-toggle button: the aria-pressed attribute,
the class list, and the data-active attribute. -/
structure ButtonState where
  ariaPressed : Option String
  classes : List String
  dataActive : Option String
  deriving DecidableEq

/-- Active-state signal read by the toggle scripts of enableThinkMode and
enableDeepSearch: aria-pressed equals true, or class list contains active, or
data-active equals true. -/
def isActiveButton (b : ButtonState) : Bool :=
  b.ariaPressed == Option.some "true" || b.classes.contains "active"
    || b.dataActive == Option.some "true"

/-- First selector hit in the toggle script: the candidate selectors are
tried in order: the first one that matches a button wins. -/
def firstButton : List (Option ButtonState) → Option ButtonState
  | [] => Option.none
  | Option.some b :: _ => Option.some b
  | Option.none :: rest => firstButton rest

/-- Number of clicks issued by one run of the toggle script (enableThinkMode,
browser.ts lines 505-542, and enableDeepSearch, lines 544-586): the first
matching button is clicked only if its active-state signal is off. -/
def modeToggleClicks (dom : List (Option ButtonState)) : Nat :=
  match firstButton dom with
  | Option.none => 0
  | Option.some b => if isActiveButton b then 0 else 1

/-- Total clicks over two successive toggle calls on one control.  The DOM
effect of a click is external to the engine, so it is the oracle clickEffect;
when the first call does not click, the button state is unchanged. -/
def toggleTwiceClicks (b : ButtonState) (clickEffect : ButtonState → ButtonState) : Nat :=
  let first := modeToggleClicks [Option.some b]
  let b2 := if isActiveButton b then b else clickEffect b
  first + modeToggleClicks [Option.some b2]

/-- A Think-mode button that is already active (aria-pressed set to true). -/
def activeThinkButton : ButtonState :=
  { ariaPressed := Option.some "true", classes := [], dataActive := Option.none }

/-- A Think-mode button that is inactive: no active-state signal set. -/
def inactiveThinkButton : ButtonState :=
  { ariaPressed := Option.none, classes := [], dataActive := Option.none }

/-- Snapshot of the DOM data inspected by the response-extraction script of
captureResponse (browser.ts lines 961-991).  selectorHits has one entry per
RESPONSE_SELECTORS candidate, in order: some t when the selector matched at
least one element, with t the trimmed text of the last match; none when the
selector matched nothing or its query threw.  fallbackTexts holds, in DOM
order, the trimmed texts of the div, section and main elements that survive
the input, form, header, nav and footer exclusion filters. -/
structure RespDom where
  selectorHits : List (Option String)
  fallbackTexts : List String
  deriving DecidableEq

/-- Selector stage of the response-extraction script: the first candidate
whose last matched element has trimmed text longer than 20 characters wins. -/
def selectorScanText : List (Option String) → Option String
  | [] => Option.none
  | Option.none :: rest => selectorScanText rest
  | Option.some t :: rest => if t.length > 20 then Option.some t else selectorScanText rest

/-- Fallback stage of the response-extraction script: the largest eligible
text block, tracked by a fold that replaces the best candidate only when the
new text is strictly longer and exceeds 50 characters. -/
def fallbackBest (texts : List String) : String :=
  texts.foldl (fun best t => if t.length > best.length && t.length > 50 then t else best) ""

/-- The whole response-extraction script: selector stage first, then the
fallback stage guarded by the 50-character floor; none when nothing passes. -/
def evalResponseScript (d : RespDom) : Option String :=
  match selectorScanText d.selectorHits with
  | Option.some t => Option.some t
  | Option.none =>
    let best := fallbackBest d.fallbackTexts
    if best.length > 50 then Option.some best else Option.none

/-- One iteration of the captureResponse polling loop as observed data:
whether the Runtime.evaluate calls of this iteration threw (the caught poll
error), the DOM snapshot, the busy-indicator evaluation, and the elapsed
milliseconds since capture start when the completion test runs. -/
structure PollObs where
  evalErr : Bool
  dom : RespDom
  loading : Bool
  elapsedMs : Nat
  deriving DecidableEq

/-- Mutable state of the captureResponse loop: lastText and stableCount. -/
structure CapState where
  lastText : String
  stableCount : Nat
  deriving DecidableEq

/-- Stability threshold STABLE_NEEDED of captureResponse: 3 polls. -/
def STABLE_NEEDED : Nat := 3

/-- Grace period STABLE_IGNORE_LOADING_AFTER_MS of captureResponse: after
4000 ms a stuck busy indicator no longer blocks completion. -/
def STABLE_IGNORE_LOADING_AFTER_MS : Nat := 4000

/-- Poll interval POLL_MS of captureResponse: 300 ms. -/
def POLL_MS : Nat := 300

/-- Result of captureResponse: an answer returned from inside the loop, the
best-effort partial text returned after the deadline, or the capture-timeout
error carrying the page-content snippet retrieved on that path. -/
inductive CaptureResult where
  | completed (text : String)
  | timedOutWithText (text : String)
  | timedOutError (snippet : String)
  deriving DecidableEq

/-- One loop body of captureResponse (browser.ts lines 959-1075) on one poll
observation: a thrown poll is caught and leaves the state unchanged; text of
more than 20 characters is compared with lastText, incrementing stableCount
when unchanged and resetting it to zero (updating lastText) when changed; the
loop returns the text when stableCount reaches STABLE_NEEDED and the busy
indicator is absent or the elapsed time exceeds the grace period. -/
def captureStep (s : CapState) (p : PollObs) : CapState ⊕ String :=
  if p.evalErr then Sum.inl s
  else
    let currentText := (evalResponseScript p.dom).getD ""
    if currentText.length > 20 then
      if currentText = s.lastText then
        let sc := s.stableCount + 1
        if STABLE_NEEDED ≤ sc ∧ (p.loading = false ∨ STABLE_IGNORE_LOADING_AFTER_MS < p.elapsedMs) then
          Sum.inr currentText
        else Sum.inl { lastText := s.lastText, stableCount := sc }
      else Sum.inl { lastText := currentText, stableCount := 0 }
    else Sum.inl s

/-- The captureResponse polling loop over a finite observation list: runs
captureStep until it returns an answer or the observations (the polls that
fit before the deadline) are exhausted. -/
def runCapture : List PollObs → CapState → CapState ⊕ String
  | [], s => Sum.inl s
  | p :: ps, s =>
    match captureStep s p with
    | Sum.inl s2 => runCapture ps s2
    | Sum.inr t => Sum.inr t

/-- captureResponse (browser.ts lines 945-1089): runs the loop from the
initial state; on exhaustion it returns the partial lastText when one was
recorded, and otherwise the capture-timeout error carrying the first 2000
characters of the page body text (finalBody) as a diagnostic snippet. -/
def captureResponse (polls : List PollObs) (finalBody : String) : CaptureResult :=
  match runCapture polls { lastText := "", stableCount := 0 } with
  | Sum.inr t => CaptureResult.completed t
  | Sum.inl s =>
    if s.lastText ≠ "" then CaptureResult.timedOutWithText s.lastText
    else CaptureResult.timedOutError (finalBody.take 2000)

/-- Texts observed by the loop: the response-extraction script results of the
polls whose evaluation did not throw. -/
def observedTexts (polls : List PollObs) : List String :=
  polls.filterMap (fun p => if p.evalErr then Option.none else evalResponseScript p.dom)

/-- A poll observation on which the response text t is visible and stable:
the evaluation succeeded, the script yields t, and the busy indicator is
absent. -/
def goodPoll (p : PollObs) (t : String) : Prop :=
  p.evalErr = false ∧ evalResponseScript p.dom = Option.some t ∧ p.loading = false

/-- Result shape of the external JSON.parse primitive as parseCookiePayload
uses it: a parsed array of items, or a single non-array value. -/
inductive JsonParsed (α : Type) where
  | arr (items : List α)
  | single (item : α)
  deriving DecidableEq

/-- Error message label of the parse failure in parseCookiePayload. -/
def invalidCookieJsonMsg : String :=
  "Invalid cookie JSON: expected a CookieParam array"

/-- Leading-whitespace removal on character lists. -/
def dropLeadingWs : List Char → List Char
  | [] => []
  | c :: cs => if c == ' ' || c == '\t' || c == '\n' || c == '\r' then dropLeadingWs cs else c :: cs

/-- Whitespace trim at both ends, modelling the JavaScript String.trim. -/
def strTrim (s : String) : String :=
  String.mk ((dropLeadingWs (dropLeadingWs s.toList).reverse).reverse)

/-- Test whether the first character of a string is c (the JavaScript
startsWith on a one-character pattern). -/
def firstCharIs (s : String) (c : Char) : Bool :=
  match s.toList with
  | [] => false
  | a :: _ => a == c

/-- Input normalization of parseCookiePayload (cookies.ts lines 23-42): trim,
then attempt a base64 decode only when the trimmed payload starts with
neither an opening bracket nor an opening brace.  The JavaScript base64
decode never throws, so it is a total oracle function here. -/
def normalizeCookieInput (b64decode : String → String) (raw : String) : String :=
  let json := strTrim raw
  if !(firstCharIs json (Char.ofNat 91)) && !(firstCharIs json (Char.ofNat 123)) then
    b64decode json
  else json

/-- parseCookiePayload (cookies.ts lines 23-42) with JSON.parse supplied as
the oracle jsonParse: a parse failure becomes the labelled error; an array
parse is returned as is; any non-array parse is wrapped in a singleton
list. -/
def parseCookiePayload {α : Type} (jsonParse : String → Option (JsonParsed α))
    (b64decode : String → String) (raw : String) : Except String (List α) :=
  match jsonParse (normalizeCookieInput b64decode raw) with
  | Option.none => Except.error invalidCookieJsonMsg
  | Option.some (JsonParsed.arr xs) => Except.ok xs
  | Option.some (JsonParsed.single x) => Except.ok [x]

/-- Cookie record as far as resolveCookies inspects it (the resolver only
passes cookie lists through and takes their lengths). -/
structure Cookie where
  name : String
  value : String
  deriving DecidableEq

/-- The four cookie-resolution sources of resolveCookies, in the priority
order of the code: inline data, inline file, the auto-discovered on-disk
file, and the Chrome cookie store. -/
inductive CookieSource where
  | inlineData
  | inlineFile
  | autoFile
  | chromeStore
  deriving DecidableEq

/-- Rank of a source in the fixed priority order. -/
def sourceRank : CookieSource → Nat
  | .inlineData => 0
  | .inlineFile => 1
  | .autoFile => 2
  | .chromeStore => 3

/-- Inputs and external collaborators of resolveCookies (browser.ts lines
1235-1282): the two inline options, oracles for parseCookiePayload and
loadCookiesFromFile, the autoLoadCookies outcome, the manual-login and
remote-chrome flags, the optional explicit cookie DB path, the platform
default DB paths, an existence oracle for paths, and an oracle for the
combined readChromeCookies calls (grok.com plus x.com rows, with a null
driver result already flattened to the empty list). -/
structure ResolveEnv where
  inlineCookies : Option String
  inlineCookiesFile : Option String
  parseInline : String → Except String (List Cookie)
  loadFile : String → Except String (List Cookie)
  autoCookies : Except String (Option (List Cookie))
  manualLogin : Bool
  remoteChrome : Bool
  cookiePath : Option String
  defaultCookiePaths : List String
  pathExists : String → Bool
  readChromeBoth : String → Except String (List Cookie)

/-- Outcome of resolveCookies instrumented with the list of sources actually
consulted, in order: the result is an error (a thrown exception), or the
winning source with its cookies, or none when every source fell through and
the resolver returned the empty list. -/
structure ResolveOutcome where
  consulted : List CookieSource
  result : Except String (Option (CookieSource × List Cookie))

/-- Chrome cookie-DB loop of resolveCookies: skip paths that do not exist;
at the first existing path attempt the read and, whether it throws, yields
no cookies, or succeeds, leave the loop (the body ends in break). -/
def chromeScanDb (env : ResolveEnv) : List String → Option (List Cookie)
  | [] => Option.none
  | p :: rest =>
    if env.pathExists p then
      match env.readChromeBoth p with
      | Except.error _ => Option.none
      | Except.ok all => if all.length > 0 then Option.some all else Option.none
    else chromeScanDb env rest

/-- Chrome stage of resolveCookies: only entered when neither manual login
nor a remote Chrome is in use; scans the explicit cookie path if given, else
the platform default paths. -/
def chromeStage (env : ResolveEnv) (consultedSoFar : List CookieSource) : ResolveOutcome :=
  if env.manualLogin = false ∧ env.remoteChrome = false then
    let paths := match env.cookiePath with
      | Option.some p => [p]
      | Option.none => env.defaultCookiePaths
    { consulted := consultedSoFar ++ [CookieSource.chromeStore],
      result := match chromeScanDb env paths with
        | Option.some all => Except.ok (Option.some (CookieSource.chromeStore, all))
        | Option.none => Except.ok Option.none }
  else { consulted := consultedSoFar, result := Except.ok Option.none }

/-- resolveCookies (browser.ts lines 1235-1282): inline cookie data first,
then the inline cookie file, then the auto-discovered on-disk file (used only
when non-null and non-empty), then the Chrome store stage; the first source
that succeeds supplies the result. -/
def resolveCookies (env : ResolveEnv) : ResolveOutcome :=
  match env.inlineCookies with
  | Option.some raw =>
    { consulted := [CookieSource.inlineData],
      result := match env.parseInline raw with
        | Except.error e => Except.error e
        | Except.ok cs => Except.ok (Option.some (CookieSource.inlineData, cs)) }
  | Option.none =>
    match env.inlineCookiesFile with
    | Option.some f =>
      { consulted := [CookieSource.inlineFile],
        result := match env.loadFile f with
          | Except.error e => Except.error e
          | Except.ok cs => Except.ok (Option.some (CookieSource.inlineFile, cs)) }
    | Option.none =>
      match env.autoCookies with
      | Except.error e => { consulted := [CookieSource.autoFile], result := Except.error e }
      | Except.ok (Option.some cs) =>
        if cs.length > 0 then
          { consulted := [CookieSource.autoFile],
            result := Except.ok (Option.some (CookieSource.autoFile, cs)) }
        else chromeStage env [CookieSource.autoFile]
      | Except.ok Option.none => chromeStage env [CookieSource.autoFile]

/-- Branch conditions of readChromeCookies (cookies.ts lines 126-236) that
determine its exit path: the cookie DB exists, the mkdtempSync call succeeds,
the copyFileSync call succeeds, the better-sqlite3 driver loads and opens,
and whether the row-reading body throws. -/
structure ChromeReadEnv where
  dbExists : Bool
  mkdtempOk : Bool
  copyOk : Bool
  driverOk : Bool
  rowsThrow : Bool
  deriving DecidableEq

/-- Call outcome of readChromeCookies: null, a cookie list, or a propagated
exception. -/
inductive ReadOutcome where
  | nullResult
  | okRows
  | threw
  deriving DecidableEq

/-- Filesystem effects of one readChromeCookies call: whether the temporary
directory was created, whether it was removed recursively before returning,
and whether only the copied DB file inside it was unlinked. -/
structure ChromeReadTrace where
  createdTmpDir : Bool
  removedTmpDirRecursive : Bool
  unlinkedCopyOnly : Bool
  outcome : ReadOutcome
  deriving DecidableEq

/-- Exit-path analysis of readChromeCookies (cookies.ts lines 126-236): a
missing DB or failed mkdtempSync returns null with nothing to clean; a failed
copy removes the directory recursively in its catch; a missing driver unlinks
only the copied file; the row-reading body runs under try-finally, whose
finally removes the directory recursively on both the normal and the throwing
path. -/
def readChromeCookiesFx (env : ChromeReadEnv) : ChromeReadTrace :=
  if env.dbExists = false then
    { createdTmpDir := false, removedTmpDirRecursive := false,
      unlinkedCopyOnly := false, outcome := ReadOutcome.nullResult }
  else if env.mkdtempOk = false then
    { createdTmpDir := false, removedTmpDirRecursive := false,
      unlinkedCopyOnly := false, outcome := ReadOutcome.nullResult }
  else if env.copyOk = false then
    { createdTmpDir := true, removedTmpDirRecursive := true,
      unlinkedCopyOnly := false, outcome := ReadOutcome.nullResult }
  else if env.driverOk = false then
    { createdTmpDir := true, removedTmpDirRecursive := false,
      unlinkedCopyOnly := true, outcome := ReadOutcome.nullResult }
  else if env.rowsThrow then
    { createdTmpDir := true, removedTmpDirRecursive := true,
      unlinkedCopyOnly := false, outcome := ReadOutcome.threw }
  else
    { createdTmpDir := true, removedTmpDirRecursive := true,
      unlinkedCopyOnly := false, outcome := ReadOutcome.okRows }

/-- Bytewise exclusive or of two byte strings (bytes as naturals below 256;
xor never leaves that range). -/
def xorBytes (a b : List Nat) : List Nat :=
  List.zipWith Nat.xor a b

/-- The fixed initialization vector of decryptChromeValue: 16 space bytes
(Buffer.alloc 16 with the space character). -/
def ivSpaces : List Nat := List.replicate 16 32

/-- Version marker v10 as bytes. -/
def v10Tag : List Nat := [118, 49, 48]

/-- Version marker v11 as bytes. -/
def v11Tag : List Nat := [118, 49, 49]

/-- PKCS7 padding length for a message of n bytes with 16-byte blocks. -/
def pkcs7PadLen (n : Nat) : Nat := 16 - n % 16

/-- PKCS7 padding, as the AES-128-CBC cipher of the host scheme applies it on
encryption: append k copies of the byte k, k between 1 and 16. -/
def pkcs7Pad (m : List Nat) : List Nat :=
  m ++ List.replicate (pkcs7PadLen m.length) (pkcs7PadLen m.length)

/-- PKCS7 unpadding with validation, as decipher.final performs it when auto
padding is on: the last byte k must lie between 1 and 16, not exceed the
length, and the last k bytes must all equal k; otherwise the decipher throws
(modelled as none). -/
def pkcs7Unpad (m : List Nat) : Option (List Nat) :=
  match m.getLast? with
  | Option.none => Option.none
  | Option.some k =>
    if 1 ≤ k ∧ k ≤ 16 ∧ k ≤ m.length ∧ (m.drop (m.length - k)).all (fun x => x == k) then
      Option.some (m.take (m.length - k))
    else Option.none

/-- Fuel-indexed splitting of a byte string into 16-byte blocks. -/
def toBlocksAux : Nat → List Nat → List (List Nat)
  | 0, _ => []
  | _ + 1, [] => []
  | fuel + 1, x :: xs => (x :: xs).take 16 :: toBlocksAux fuel ((x :: xs).drop 16)

/-- Splitting of a byte string into 16-byte blocks. -/
def toBlocks (l : List Nat) : List (List Nat) :=
  toBlocksAux l.length l

/-- CBC-mode encryption over 16-byte blocks, with the AES-128 block
permutation under the derived key supplied as the function E: each plaintext
block is xored with the previous ciphertext block (initially the IV) before
the block permutation. -/
def cbcEncryptBlocks (E : List Nat → List Nat) : List Nat → List (List Nat) → List (List Nat)
  | _, [] => []
  | prev, b :: bs =>
    let c := E (xorBytes prev b)
    c :: cbcEncryptBlocks E c bs

/-- CBC-mode decryption over 16-byte blocks, with the inverse AES-128 block
permutation under the same key supplied as the function D. -/
def cbcDecryptBlocks (D : List Nat → List Nat) : List Nat → List (List Nat) → List (List Nat)
  | _, [] => []
  | prev, c :: cs => xorBytes prev (D c) :: cbcDecryptBlocks D c cs

/-- decryptChromeValue (cookies.ts lines 104-119) at the byte level, with the
AES-128 block decryption under the PBKDF2-derived key supplied as the
function D: values shorter than 3 bytes are rejected; the 3-byte version
marker must be v10 or v11; the remainder is decrypted in CBC mode under the
16-space IV and unpadded; any failure inside the decipher (a ciphertext that
is empty or not a whole number of blocks, or invalid padding) is caught and
yields null, modelled as none. -/
def decryptChromeValue (D : List Nat → List Nat) (encryptedValue : List Nat) : Option (List Nat) :=
  if encryptedValue.length < 3 then Option.none
  else
    let tag := encryptedValue.take 3
    if tag ≠ v10Tag ∧ tag ≠ v11Tag then Option.none
    else
      let encrypted := encryptedValue.drop 3
      if encrypted.length % 16 = 0 ∧ encrypted.length ≠ 0 then
        pkcs7Unpad (cbcDecryptBlocks D ivSpaces (toBlocks encrypted)).flatten
      else Option.none

/-- Modelled from the spec: the encryption direction of the cookie
round-trip property, absent from the sources, which only decrypt.  Following
the documented host scheme, the plaintext is PKCS7-padded, encrypted with
AES-128-CBC (block permutation E under the PBKDF2-derived key) using the
fixed 16-space IV, and prefixed with the v10 version marker. -/
def encryptChromeValue (E : List Nat → List Nat) (plain : List Nat) : List Nat :=
  v10Tag ++ (cbcEncryptBlocks E ivSpaces (toBlocks (pkcs7Pad plain))).flatten

/-- Page snapshot carrying markers of every group at once, with the
interstitial text present. -/
def allMarkersDom : ChallengeDom :=
  { url := "https://x.com/login", title := "Just a moment...",
    body := "Checking your browser before accessing"
    cfChallengesIframe := true, cfTurnstileClass := true
    cfTurnstileResponseInput := true, arkoseIframe := true
    funcaptchaIframe := true, funCaptchaElem := true, arkoseIdElem := true
    fcTokenInput := true, recaptchaIframe := true, gRecaptchaClass := true
    dataSitekeyElem := true, hcaptchaIframe := true, hCaptchaClass := true }

/-- Page snapshot with the widget marker and all later groups set, but no
interstitial text. -/
def widgetAndLaterDom : ChallengeDom :=
  { allMarkersDom with url := "https://x.com/login", title := "Grok", body := "Verifying" }

/-- C2: detectChallenge computes exactly one Challenge value by testing the
marker groups in a fixed order — interstitial title/body text, anti-bot
widget markers, app-specific puzzle markers, generic reCAPTCHA then hCaptcha
markers, login-redirect URL patterns — where the first matching group
determines the result and none is returned when no group matches; on a DOM
state carrying markers of several kinds, the earlier group wins. -/
theorem detectChallenge_first_match_wins (d : ChallengeDom) :
    (interstitialMarker d = true → evalChallengeScript d = ChallengeKind.cloudflareChallenge)
  ∧ (interstitialMarker d = false → widgetMarker d = true →
      evalChallengeScript d = ChallengeKind.cloudflareTurnstile)
  ∧ (interstitialMarker d = false → widgetMarker d = false → puzzleMarker d = true →
      evalChallengeScript d = ChallengeKind.arkoseFuncaptcha)
  ∧ (interstitialMarker d = false → widgetMarker d = false → puzzleMarker d = false →
      recaptchaMarker d = true → evalChallengeScript d = ChallengeKind.recaptcha)
  ∧ (interstitialMarker d = false → widgetMarker d = false → puzzleMarker d = false →
      recaptchaMarker d = false → hcaptchaMarker d = true →
      evalChallengeScript d = ChallengeKind.hcaptcha)
  ∧ (interstitialMarker d = false → widgetMarker d = false → puzzleMarker d = false →
      recaptchaMarker d = false → hcaptchaMarker d = false → loginRedirectMarker d = true →
      evalChallengeScript d = ChallengeKind.loginWall)
  ∧ (interstitialMarker d = false → widgetMarker d = false → puzzleMarker d = false →
      recaptchaMarker d = false → hcaptchaMarker d = false → loginRedirectMarker d = false →
      evalChallengeScript d = ChallengeKind.none) := by
  refine ⟨?_, ?_, ?_, ?_, ?_, ?_, ?_⟩ <;> intros <;> simp_all [evalChallengeScript]

/-- Witness for C2: on a page with every marker group present, the
interstitial group wins; with every group but the interstitial one, the
widget group wins. -/
theorem detectChallenge_first_match_wins_witness :
    evalChallengeScript allMarkersDom = ChallengeKind.cloudflareChallenge
  ∧ evalChallengeScript widgetAndLaterDom = ChallengeKind.cloudflareTurnstile :=
  ⟨(detectChallenge_first_match_wins allMarkersDom).1 (by decide),
   (detectChallenge_first_match_wins widgetAndLaterDom).2.1 (by decide) (by decide)⟩

/-- C9: detectChallenge never propagates an error — a thrown in-page
evaluation, like a missing result value, yields none, so a failed evaluation
is indistinguishable at the interface from a page with no challenge. -/
theorem detectChallenge_eval_failure_is_none :
    detectChallenge EvalOutcome.threw = ChallengeKind.none
  ∧ detectChallenge EvalOutcome.noValue = ChallengeKind.none
  ∧ detectChallenge (EvalOutcome.value blankChallengeDom) = detectChallenge EvalOutcome.threw := by
  refine ⟨rfl, rfl, ?_⟩
  decide

/-- Counterexample to C4 as stated: given a Cloudflare challenge in headless
mode, handleChallenge still performs the 30-second self-clearance poll and,
when the challenge does not clear, still suspends for the blocking console
read — it does not return after the warning. -/
theorem handleChallenge_headless_counterexample :
    BrowserAction.pollChallengeGone 30000
      ∈ (handleChallenge ChallengeKind.cloudflareChallenge true false).1
  ∧ BrowserAction.promptEnter "Press Enter after the challenge is solved: "
      ∈ (handleChallenge ChallengeKind.cloudflareChallenge true false).1 := by
  decide

/-- C4 amended: in headless mode the handler warns that auto-resolution is
unreliable, but the 30-second poll runs regardless, the blocking console read
still happens when the poll fails, and headless changes nothing but the
message emitted before polling (the traces agree except at position 1, where
headless emits the warning). -/
theorem handleChallenge_headless_still_polls (kind : ChallengeKind) (resolved : Bool)
    (hk : kind = ChallengeKind.cloudflareChallenge ∨ kind = ChallengeKind.cloudflareTurnstile) :
    (handleChallenge kind true resolved).2 = Option.none
  ∧ BrowserAction.pollChallengeGone 30000 ∈ (handleChallenge kind true resolved).1
  ∧ (resolved = false →
      BrowserAction.promptEnter "Press Enter after the challenge is solved: "
        ∈ (handleChallenge kind true resolved).1)
  ∧ (handleChallenge kind true resolved).1.take 1 = (handleChallenge kind false resolved).1.take 1
  ∧ (handleChallenge kind true resolved).1.drop 2 = (handleChallenge kind false resolved).1.drop 2
  ∧ ((handleChallenge kind true resolved).1)[1]?
      = Option.some (BrowserAction.warnMsg
          "Cloudflare challenge in headless mode — restart without --headless.") := by
  rcases hk with rfl | rfl <;> cases resolved <;> decide

/-- Witness for the amended C4 at the turnstile kind with a poll that
resolves: the headless handler finishes without throwing. -/
theorem handleChallenge_headless_still_polls_witness :
    (handleChallenge ChallengeKind.cloudflareTurnstile true true).2 = Option.none :=
  (handleChallenge_headless_still_polls ChallengeKind.cloudflareTurnstile true (Or.inr rfl)).1

/-- Counterexample to C5 as stated: two toggle calls on an already-active
control issue zero clicks, not exactly one. -/
theorem toggleTwice_active_counterexample :
    isActiveButton activeThinkButton = true
  ∧ toggleTwiceClicks activeThinkButton (fun c => c) = 0
  ∧ toggleTwiceClicks activeThinkButton (fun c => c) ≠ 1 := by
  decide

/-- C5 amended: the toggle clicks only an inactive control, so two calls on an
already-active control click zero times, two calls on an initially inactive
control whose click activates it click exactly once. -/
theorem toggleTwice_clicks (b : ButtonState) (f : ButtonState → ButtonState) :
    (isActiveButton b = true → toggleTwiceClicks b f = 0)
  ∧ (isActiveButton b = false → isActiveButton (f b) = true → toggleTwiceClicks b f = 1) := by
  cases hb : isActiveButton b <;> cases hf : isActiveButton (f b) <;>
    simp [toggleTwiceClicks, modeToggleClicks, firstButton, hb, hf]

/-- Witness for the amended C5: an inactive Think button whose click turns it
active receives exactly one click over two toggle calls. -/
theorem toggleTwice_clicks_witness :
    toggleTwiceClicks inactiveThinkButton (fun _ => activeThinkButton) = 1 :=
  (toggleTwice_clicks inactiveThinkButton (fun _ => activeThinkButton)).2
    (by decide) (by decide)

/-- C3 at the failing input: when the DB exists and the temporary directory
and copy succeed but no SQLite driver is available, readChromeCookies unlinks
only the copied file and returns with the temporary directory still present;
the copy-failure, row-throwing and normal paths do remove the directory. -/
theorem readChromeCookies_driver_missing_leak :
    (readChromeCookiesFx ⟨true, true, true, false, false⟩).createdTmpDir = true
  ∧ (readChromeCookiesFx ⟨true, true, true, false, false⟩).removedTmpDirRecursive = false
  ∧ (readChromeCookiesFx ⟨true, true, true, false, false⟩).unlinkedCopyOnly = true
  ∧ (readChromeCookiesFx ⟨true, true, false, true, false⟩).removedTmpDirRecursive = true
  ∧ (readChromeCookiesFx ⟨true, true, true, true, true⟩).removedTmpDirRecursive = true
  ∧ (readChromeCookiesFx ⟨true, true, true, true, false⟩).removedTmpDirRecursive = true := by
  decide

/-- C10: parseCookiePayload wraps a payload parsing to a single non-array
JSON value in a one-element list, and a payload that is not valid JSON even
after the base64-decode attempt produces the labelled Invalid cookie JSON
error rather than a value. -/
theorem parseCookiePayload_single_and_invalid {α : Type}
    (jsonParse : String → Option (JsonParsed α)) (b64decode : String → String) (raw : String) :
    (∀ x, jsonParse (normalizeCookieInput b64decode raw) = Option.some (JsonParsed.single x) →
      parseCookiePayload jsonParse b64decode raw = Except.ok [x])
  ∧ (jsonParse (normalizeCookieInput b64decode raw) = Option.none →
      parseCookiePayload jsonParse b64decode raw = Except.error invalidCookieJsonMsg) := by
  constructor
  · intro x h
    simp [parseCookiePayload, h]
  · intro h
    simp [parseCookiePayload, h]

/-- Demonstration JSON.parse oracle: one payload parses to a single object,
everything else fails to parse. -/
def demoJsonParse : String → Option (JsonParsed String) :=
  fun s => if s = "OBJ" then Option.some (JsonParsed.single "cookie-object") else Option.none

/-- Witness for C10: with the demonstration oracle, the single-object payload
yields a one-element list and an unparsable payload yields the labelled
error. -/
theorem parseCookiePayload_single_and_invalid_witness :
    parseCookiePayload demoJsonParse (fun s => s) "OBJ" = Except.ok ["cookie-object"]
  ∧ parseCookiePayload demoJsonParse (fun s => s) "broken" = Except.error invalidCookieJsonMsg :=
  ⟨(parseCookiePayload_single_and_invalid demoJsonParse (fun s => s) "OBJ").1
      "cookie-object" (by decide),
   (parseCookiePayload_single_and_invalid demoJsonParse (fun s => s) "broken").2 (by decide)⟩

/-- C8: when a resolution source supplies the credential set, the winning
source is the last one consulted, every consulted source sits at or before it
in the fixed priority order (inline data, inline file, auto-discovered file,
Chrome store), and the consulted list is strictly increasing in that order —
so exactly one source supplies the result and no later source is consulted
after a success. -/
theorem resolveCookies_priority (env : ResolveEnv) (s : CookieSource) (cs : List Cookie)
    (h : (resolveCookies env).result = Except.ok (Option.some (s, cs))) :
    (resolveCookies env).consulted.getLast? = Option.some s
  ∧ (∀ s2, s2 ∈ (resolveCookies env).consulted → sourceRank s2 ≤ sourceRank s)
  ∧ List.Chain' (fun a b => sourceRank a < sourceRank b) (resolveCookies env).consulted := by
  unfold resolveCookies chromeStage at h ⊢
  repeat' split at h
  all_goals try simp_all [sourceRank]
  all_goals repeat' split at h
  all_goals try simp_all [sourceRank]
  all_goals (obtain ⟨rfl, h2⟩ := h; decide)

/-- Environment in which only inline cookie data is present and parses. -/
def inlineOnlyEnv : ResolveEnv :=
  { inlineCookies := Option.some "payload"
    inlineCookiesFile := Option.none
    parseInline := fun _ => Except.ok [{ name := "auth_token", value := "t" }]
    loadFile := fun _ => Except.error "unused"
    autoCookies := Except.ok Option.none
    manualLogin := false, remoteChrome := false
    cookiePath := Option.none, defaultCookiePaths := []
    pathExists := fun _ => false
    readChromeBoth := fun _ => Except.ok [] }

/-- Witness for C8: with inline cookie data present, the inline-data source
wins and is the last (and only) source consulted. -/
theorem resolveCookies_priority_witness :
    (resolveCookies inlineOnlyEnv).consulted.getLast? = Option.some CookieSource.inlineData :=
  (resolveCookies_priority inlineOnlyEnv CookieSource.inlineData
    [{ name := "auth_token", value := "t" }] rfl).1

/-- Any text produced by the selector stage exceeds 20 characters. -/
theorem selectorScanText_length : ∀ (hits : List (Option String)) (t : String),
    selectorScanText hits = Option.some t → 20 < t.length := by
  intro hits
  induction hits with
  | nil => intro t h; simp [selectorScanText] at h
  | cons a rest ih =>
    intro t h
    cases a with
    | none => exact ih t (by simpa [selectorScanText] using h)
    | some u =>
      by_cases hu : u.length > 20
      · simp [selectorScanText, hu] at h
        exact h ▸ hu
      · simp [selectorScanText, hu] at h
        exact ih t h

/-- Any text produced by the response-extraction script exceeds the
20-character floor (the fallback stage even requires more than 50). -/
theorem evalResponseScript_length (d : RespDom) (t : String)
    (h : evalResponseScript d = Option.some t) : 20 < t.length := by
  unfold evalResponseScript at h
  cases hs : selectorScanText d.selectorHits with
  | some u =>
    rw [hs] at h
    exact Option.some.inj h ▸ selectorScanText_length d.selectorHits u hs
  | none =>
    rw [hs] at h
    by_cases hb : (fallbackBest d.fallbackTexts).length > 50
    · simp only [hb, if_pos] at h
      have h2 := Option.some.inj h
      rw [← h2]
      omega
    · simp [hb] at h

/-- Texts recorded in observedTexts all exceed the 20-character floor. -/
theorem observedTexts_length (polls : List PollObs) (t : String)
    (h : t ∈ observedTexts polls) : 20 < t.length := by
  unfold observedTexts at h
  rw [List.mem_filterMap] at h
  obtain ⟨p, _, hp⟩ := h
  cases he : p.evalErr with
  | true => simp [he] at hp
  | false =>
    rw [he] at hp
    simp at hp
    exact evalResponseScript_length p.dom t hp

/-- Auxiliary getLast?-getD identity used by the lastText invariant. -/
theorem getLastD_cons : ∀ (l : List String) (a d : String),
    ((a :: l).getLast?).getD d = (l.getLast?).getD a := by
  intro l
  induction l with
  | nil => intro a d; rfl
  | cons b m ih =>
    intro a d
    rw [List.getLast?_cons_cons, ih b d, ih b a]

/-- Invariant of the capture loop: when the loop runs to exhaustion, its
lastText is the most recent observed text, or the initial lastText when no
text was observed. -/
theorem runCapture_lastText : ∀ (polls : List PollObs) (s s2 : CapState),
    runCapture polls s = Sum.inl s2 →
    s2.lastText = ((observedTexts polls).getLast?).getD s.lastText := by
  intro polls
  induction polls with
  | nil =>
    intro s s2 h
    simp [runCapture] at h
    simp [observedTexts, h]
  | cons p ps ih =>
    intro s s2 h
    unfold runCapture at h
    by_cases he : p.evalErr = true
    · have hstep : captureStep s p = Sum.inl s := by simp [captureStep, he]
      rw [hstep] at h
      have hobs : observedTexts (p :: ps) = observedTexts ps := by
        simp [observedTexts, he]
      rw [hobs]
      exact ih s s2 h
    · have he2 : p.evalErr = false := by simpa using he
      cases hscript : evalResponseScript p.dom with
      | none =>
        have hstep : captureStep s p = Sum.inl s := by
          simp [captureStep, he2, hscript]
        rw [hstep] at h
        have hobs : observedTexts (p :: ps) = observedTexts ps := by
          simp [observedTexts, he2, hscript]
        rw [hobs]
        exact ih s s2 h
      | some t =>
        have hlen : 20 < t.length := evalResponseScript_length p.dom t hscript
        have hobs : observedTexts (p :: ps) = t :: observedTexts ps := by
          simp [observedTexts, he2, hscript]
        rw [hobs, getLastD_cons]
        by_cases heq : t = s.lastText
        · have hlen2 : 20 < s.lastText.length := heq ▸ hlen
          by_cases hdone : STABLE_NEEDED ≤ s.stableCount + 1
            ∧ (p.loading = false ∨ STABLE_IGNORE_LOADING_AFTER_MS < p.elapsedMs)
          · have hstep : captureStep s p = Sum.inr t := by
              simp [captureStep, he2, hscript, heq, hdone, hlen, hlen2]
            rw [hstep] at h
            exact absurd h (by simp)
          · have hstep : captureStep s p
                = Sum.inl { lastText := s.lastText, stableCount := s.stableCount + 1 } := by
              simp [captureStep, he2, hscript, heq, hdone, hlen, hlen2]
            rw [hstep] at h
            have hih := ih _ s2 h
            rw [hih, heq]
        · have hstep : captureStep s p = Sum.inl { lastText := t, stableCount := 0 } := by
            simp [captureStep, he2, hscript, heq, hlen]
          rw [hstep] at h
          exact ih _ s2 h

/-- C1: when the capture loop exhausts its polls without the stability
condition returning (no completed result), then if no text was ever observed
it fails with the capture-timeout error carrying the page-content snippet,
and if any text was observed it returns the last observed text — which is
non-empty — as a best-effort partial result, without throwing. -/
theorem capture_timeout_behavior (polls : List PollObs) (finalBody : String)
    (hnc : ∀ t, captureResponse polls finalBody ≠ CaptureResult.completed t) :
    (observedTexts polls = [] →
      captureResponse polls finalBody = CaptureResult.timedOutError (finalBody.take 2000))
  ∧ (∀ t, (observedTexts polls).getLast? = Option.some t →
      t ≠ "" ∧ captureResponse polls finalBody = CaptureResult.timedOutWithText t) := by
  cases hrun : runCapture polls { lastText := "", stableCount := 0 } with
  | inr t => exact absurd (by simp [captureResponse, hrun]) (hnc t)
  | inl s =>
    have hlast : s.lastText = ((observedTexts polls).getLast?).getD "" :=
      runCapture_lastText polls _ s hrun
    constructor
    · intro hobs
      rw [hobs] at hlast
      simp at hlast
      simp [captureResponse, hrun, hlast]
    · intro t ht
      rw [ht] at hlast
      simp at hlast
      have htlen : 20 < t.length :=
        observedTexts_length polls t (List.mem_of_getLast?_eq_some ht)
      have hne : t ≠ "" := by
        intro h0
        rw [h0] at htlen
        simp at htlen
      refine ⟨hne, ?_⟩
      simp [captureResponse, hrun, hlast, hne]

/-- Single-poll run that observes one long text but cannot stabilize. -/
def capturePolls1 : List PollObs :=
  [{ evalErr := false
     dom := { selectorHits := [Option.some "a reasonably long captured answer"],
              fallbackTexts := [] }
     loading := false, elapsedMs := 300 }]

/-- Witness for C1: a single-poll run observes one text, never stabilizes,
and returns it as the best-effort partial result. -/
theorem capture_timeout_behavior_witness :
    captureResponse capturePolls1 "" =
      CaptureResult.timedOutWithText "a reasonably long captured answer" :=
  ((capture_timeout_behavior capturePolls1 ""
      (fun t h => by
        rw [show captureResponse capturePolls1 ""
              = CaptureResult.timedOutWithText "a reasonably long captured answer" from by decide]
          at h
        exact CaptureResult.noConfusion h)).2
    "a reasonably long captured answer" (by decide)).2

/-- One capture step on a good poll from a state already tracking the text:
the counter increments, and the loop returns once it reaches the
threshold. -/
theorem captureStep_good (p : PollObs) (t : String) (m : Nat) (hp : goodPoll p t) :
    captureStep { lastText := t, stableCount := m } p
      = if STABLE_NEEDED ≤ m + 1 then Sum.inr t
        else Sum.inl { lastText := t, stableCount := m + 1 } := by
  obtain ⟨he, hs, hl⟩ := hp
  have hlen : 20 < t.length := evalResponseScript_length _ _ hs
  by_cases hd : STABLE_NEEDED ≤ m + 1
  · simp [captureStep, he, hs, hl, hlen, hd]
  · simp [captureStep, he, hs, hl, hlen, hd]

/-- One capture step on a poll whose text differs from the tracked value:
the tracked value updates and the counter resets to zero, regardless of the
busy indicator. -/
theorem captureStep_reset (s : CapState) (p : PollObs) (u : String)
    (he : p.evalErr = false) (hs : evalResponseScript p.dom = Option.some u)
    (hne : u ≠ s.lastText) :
    captureStep s p = Sum.inl { lastText := u, stableCount := 0 } := by
  have hlen : 20 < u.length := evalResponseScript_length _ _ hs
  simp [captureStep, he, hs, hne, hlen]

/-- The capture loop over an appended poll list runs the first part and, when
it does not return, continues into the second from the reached state. -/
theorem runCapture_append : ∀ (l1 l2 : List PollObs) (s : CapState),
    runCapture (l1 ++ l2) s
      = match runCapture l1 s with
        | Sum.inl s2 => runCapture l2 s2
        | Sum.inr t => Sum.inr t := by
  intro l1
  induction l1 with
  | nil => intro l2 s; rfl
  | cons p ps ih =>
    intro l2 s
    show runCapture (p :: (ps ++ l2)) s = _
    cases hc : captureStep s p with
    | inl s2 =>
      have e1 : runCapture (p :: (ps ++ l2)) s = runCapture (ps ++ l2) s2 := by
        simp only [runCapture, hc]
      have e2 : runCapture (p :: ps) s = runCapture ps s2 := by
        simp only [runCapture, hc]
      rw [e1, e2]
      exact ih l2 s2
    | inr t =>
      have e1 : runCapture (p :: (ps ++ l2)) s = Sum.inr t := by
        simp only [runCapture, hc]
      have e2 : runCapture (p :: ps) s = Sum.inr t := by
        simp only [runCapture, hc]
      rw [e1, e2]

/-- Three consecutive good polls from a state already tracking the text make
the loop return that text, whatever the counter value. -/
theorem runCapture_stable_three (p0 p1 p2 : PollObs) (rest : List PollObs)
    (t : String) (m : Nat)
    (h0 : goodPoll p0 t) (h1 : goodPoll p1 t) (h2 : goodPoll p2 t) :
    runCapture (p0 :: p1 :: p2 :: rest) { lastText := t, stableCount := m } = Sum.inr t := by
  have hs0 := captureStep_good p0 t m h0
  by_cases hd0 : STABLE_NEEDED ≤ m + 1
  · simp [runCapture, hs0, hd0]
  · have hs1 := captureStep_good p1 t (m + 1) h1
    by_cases hd1 : STABLE_NEEDED ≤ m + 1 + 1
    · simp [runCapture, hs0, hd0, hs1, hd1]
    · have hs2 := captureStep_good p2 t (m + 1 + 1) h2
      have hd2 : STABLE_NEEDED ≤ m + 1 + 1 + 1 := by
        unfold STABLE_NEEDED
        omega
      simp [runCapture, hs0, hd0, hs1, hd1, hs2, hd2]

/-- C7: if the capture loop has not returned before poll k and polls k
through k+3 all observe the same text above the length floor with the busy
indicator absent, the loop returns exactly that text using no poll beyond
k+3 — that is, within STABLE_NEEDED x POLL_MS of poll k; moreover a poll
whose text differs from the tracked value resets the stability counter to
zero and updates the tracked value. -/
theorem capture_stability (polls : List PollObs) (k : Nat) (t : String) (finalBody : String)
    (hlen : k + 3 < polls.length)
    (hgood : ∀ i, k ≤ i → i ≤ k + 3 → ∀ hi : i < polls.length, goodPoll (polls.get ⟨i, hi⟩) t)
    (hnoearly : ∃ s, runCapture (polls.take k) { lastText := "", stableCount := 0 } = Sum.inl s) :
    captureResponse polls finalBody = CaptureResult.completed t
  ∧ captureResponse (polls.take (k + 4)) finalBody = CaptureResult.completed t
  ∧ (∀ (s : CapState) (p : PollObs) (u : String), p.evalErr = false →
      evalResponseScript p.dom = Option.some u → u ≠ s.lastText →
      captureStep s p = Sum.inl { lastText := u, stableCount := 0 }) := by
  obtain ⟨s, hs⟩ := hnoearly
  have hk0 : k < polls.length := by omega
  have hk1 : k + 1 < polls.length := by omega
  have hk2 : k + 2 < polls.length := by omega
  have hk3 : k + 3 < polls.length := hlen
  have g0 := hgood k (Nat.le_refl k) (by omega) hk0
  have g1 := hgood (k + 1) (by omega) (by omega) hk1
  have g2 := hgood (k + 2) (by omega) (by omega) hk2
  have g3 := hgood (k + 3) (by omega) (by omega) hk3
  have hdrop : polls.drop k
      = polls.get ⟨k, hk0⟩ :: polls.get ⟨k + 1, hk1⟩ :: polls.get ⟨k + 2, hk2⟩
          :: polls.get ⟨k + 3, hk3⟩ :: polls.drop (k + 4) := by
    rw [List.drop_eq_getElem_cons hk0, List.drop_eq_getElem_cons hk1,
        List.drop_eq_getElem_cons hk2, List.drop_eq_getElem_cons hk3]
    simp [List.get_eq_getElem]
  have htake : polls.take (k + 4)
      = polls.take k ++ [polls.get ⟨k, hk0⟩, polls.get ⟨k + 1, hk1⟩,
          polls.get ⟨k + 2, hk2⟩, polls.get ⟨k + 3, hk3⟩] := by
    rw [List.take_add, hdrop]
    simp [List.take]
  have hsplitFull := runCapture_append (polls.take k) (polls.drop k)
    { lastText := "", stableCount := 0 }
  rw [List.take_append_drop, hs] at hsplitFull
  have hsplitTake := runCapture_append (polls.take k)
    [polls.get ⟨k, hk0⟩, polls.get ⟨k + 1, hk1⟩, polls.get ⟨k + 2, hk2⟩,
      polls.get ⟨k + 3, hk3⟩] { lastText := "", stableCount := 0 }
  rw [← htake, hs] at hsplitTake
  have hrunFull : runCapture polls { lastText := "", stableCount := 0 } = Sum.inr t := by
    rw [hsplitFull, hdrop]
    by_cases hlt : t = s.lastText
    · obtain ⟨lt, sc⟩ := s
      simp only at hlt
      subst hlt
      exact runCapture_stable_three _ _ _ _ t sc g0 g1 g2
    · have hstep := captureStep_reset s (polls.get ⟨k, hk0⟩) t g0.1 g0.2.1 hlt
      unfold runCapture
      rw [hstep]
      exact runCapture_stable_three _ _ _ _ t 0 g1 g2 g3
  have hrunTake : runCapture (polls.take (k + 4)) { lastText := "", stableCount := 0 }
      = Sum.inr t := by
    rw [hsplitTake]
    by_cases hlt : t = s.lastText
    · obtain ⟨lt, sc⟩ := s
      simp only at hlt
      subst hlt
      exact runCapture_stable_three _ _ _ _ t sc g0 g1 g2
    · have hstep := captureStep_reset s (polls.get ⟨k, hk0⟩) t g0.1 g0.2.1 hlt
      unfold runCapture
      rw [hstep]
      exact runCapture_stable_three _ _ _ [] t 0 g1 g2 g3
  refine ⟨by simp [captureResponse, hrunFull], by simp [captureResponse, hrunTake], ?_⟩
  intro s2 p u he hsc hne
  exact captureStep_reset s2 p u he hsc hne

/-- Poll list for the C7 witness: one bad poll, then four good polls showing
the same stable text with the busy indicator absent. -/
def capturePolls7 : List PollObs :=
  { evalErr := true
    dom := { selectorHits := [], fallbackTexts := [] }
    loading := false, elapsedMs := 0 } ::
  List.replicate 4
    { evalErr := false
      dom := { selectorHits := [Option.some "stable answer text for the capture"],
               fallbackTexts := [] }
      loading := false, elapsedMs := 600 }

/-- Witness for C7: with the text stable from poll 1 onward, capture returns
it, and already within polls 1 through 4. -/
theorem capture_stability_witness :
    captureResponse capturePolls7 "" =
      CaptureResult.completed "stable answer text for the capture" :=
  (capture_stability capturePolls7 1 "stable answer text for the capture" ""
    (by decide)
    (by
      intro i h1 h4 hi
      interval_cases i <;> exact ⟨rfl, rfl, rfl⟩)
    ⟨{ lastText := "", stableCount := 0 }, by decide⟩).1

/-- Bytewise xor cancels itself on equal-length byte strings. -/
theorem xorBytes_cancel : ∀ (a b : List Nat), a.length = b.length →
    xorBytes a (xorBytes a b) = b := by
  intro a
  induction a with
  | nil =>
    intro b h
    have hb : b = [] := List.eq_nil_of_length_eq_zero h.symm
    subst hb
    rfl
  | cons x xs ih =>
    intro b h
    cases b with
    | nil => simp at h
    | cons y ys =>
      have h2 : xs.length = ys.length := by simpa using h
      have htail := ih ys h2
      show List.zipWith Nat.xor (x :: xs) (List.zipWith Nat.xor (x :: xs) (y :: ys)) = y :: ys
      rw [List.zipWith_cons_cons, List.zipWith_cons_cons]
      have hx : Nat.xor x (Nat.xor x y) = y := by
        rw [show Nat.xor x (Nat.xor x y) = x ^^^ (x ^^^ y) from rfl,
          ← Nat.xor_assoc, Nat.xor_self, Nat.zero_xor]
      rw [hx]
      exact congrArg (List.cons y) htail

/-- Length of a bytewise xor. -/
theorem xorBytes_length (a b : List Nat) :
    (xorBytes a b).length = min a.length b.length := by
  simp [xorBytes]

/-- The PKCS7 padded message has a whole number of 16-byte blocks. -/
theorem pkcs7Pad_length_mod (m : List Nat) : (pkcs7Pad m).length % 16 = 0 := by
  simp [pkcs7Pad, pkcs7PadLen]
  omega

/-- The PKCS7 padded message is longer than the original. -/
theorem pkcs7Pad_length (m : List Nat) :
    (pkcs7Pad m).length = m.length + pkcs7PadLen m.length := by
  simp [pkcs7Pad]

/-- Unpadding a padded message restores it. -/
theorem pkcs7Unpad_pad (m : List Nat) : pkcs7Unpad (pkcs7Pad m) = Option.some m := by
  have hk1 : 1 ≤ pkcs7PadLen m.length := by
    unfold pkcs7PadLen
    omega
  have hk16 : pkcs7PadLen m.length ≤ 16 := by
    unfold pkcs7PadLen
    omega
  obtain ⟨j, hj⟩ : ∃ j, pkcs7PadLen m.length = j + 1 := ⟨pkcs7PadLen m.length - 1, by omega⟩
  have hsplit : pkcs7Pad m
      = (m ++ List.replicate j (pkcs7PadLen m.length)) ++ [pkcs7PadLen m.length] := by
    unfold pkcs7Pad
    rw [hj, List.replicate_succ']
    rw [← List.append_assoc, ← hj]
  have hlast : (pkcs7Pad m).getLast? = Option.some (pkcs7PadLen m.length) := by
    rw [hsplit, List.getLast?_concat]
  have hlen : (pkcs7Pad m).length = m.length + pkcs7PadLen m.length := pkcs7Pad_length m
  have hdrop : (pkcs7Pad m).drop ((pkcs7Pad m).length - pkcs7PadLen m.length)
      = List.replicate (pkcs7PadLen m.length) (pkcs7PadLen m.length) := by
    have h2 : (pkcs7Pad m).length - pkcs7PadLen m.length = m.length := by omega
    rw [h2]
    unfold pkcs7Pad
    exact List.drop_left m _
  have htake : (pkcs7Pad m).take ((pkcs7Pad m).length - pkcs7PadLen m.length) = m := by
    have h2 : (pkcs7Pad m).length - pkcs7PadLen m.length = m.length := by omega
    rw [h2]
    unfold pkcs7Pad
    exact List.take_left m _
  have hcond : 1 ≤ pkcs7PadLen m.length ∧ pkcs7PadLen m.length ≤ 16
      ∧ pkcs7PadLen m.length ≤ (pkcs7Pad m).length
      ∧ ((pkcs7Pad m).drop ((pkcs7Pad m).length - pkcs7PadLen m.length)).all
          (fun x => x == pkcs7PadLen m.length) := by
    refine ⟨hk1, hk16, by omega, ?_⟩
    rw [hdrop]
    simp [List.all_eq_true, List.mem_replicate]
  unfold pkcs7Unpad
  simp only [hlast]
  rw [if_pos hcond, htake]

/-- On input with a whole number of blocks, the chunking function produces
blocks of 16 bytes whose concatenation is the input. -/
theorem toBlocksAux_flatten : ∀ (fuel : Nat) (l : List Nat), l.length ≤ fuel →
    l.length % 16 = 0 →
    (toBlocksAux fuel l).flatten = l ∧ ∀ b ∈ toBlocksAux fuel l, b.length = 16 := by
  intro fuel
  induction fuel with
  | zero =>
    intro l hle _
    have hl : l = [] := List.eq_nil_of_length_eq_zero (by omega)
    subst hl
    simp [toBlocksAux]
  | succ f ih =>
    intro l hle hmod
    cases l with
    | nil => simp [toBlocksAux]
    | cons x xs =>
      have hlen1 : 1 ≤ (x :: xs).length := by simp
      have hlen16 : 16 ≤ (x :: xs).length := by omega
      have hdlen : ((x :: xs).drop 16).length = (x :: xs).length - 16 := by simp
      have ihres := ih ((x :: xs).drop 16) (by omega) (by omega)
      constructor
      · show ((x :: xs).take 16 :: toBlocksAux f ((x :: xs).drop 16)).flatten = x :: xs
        rw [List.flatten_cons, ihres.1, List.take_append_drop]
      · intro b hb
        rcases List.mem_cons.mp hb with rfl | hb2
        · rw [List.length_take]
          omega
        · exact ihres.2 b hb2

/-- Chunking the concatenation of 16-byte blocks restores the blocks. -/
theorem toBlocksAux_of_flatten : ∀ (bs : List (List Nat)) (fuel : Nat),
    (∀ b ∈ bs, b.length = 16) → bs.flatten.length ≤ fuel →
    toBlocksAux fuel bs.flatten = bs := by
  intro bs
  induction bs with
  | nil =>
    intro fuel _ _
    cases fuel <;> simp [toBlocksAux]
  | cons b rest ih =>
    intro fuel hlen hf
    have hb : b.length = 16 := hlen b (by simp)
    cases fuel with
    | zero =>
      exfalso
      rw [List.flatten_cons, List.length_append] at hf
      omega
    | succ f =>
      cases b with
      | nil => simp at hb
      | cons y ys =>
        have hflat : ((y :: ys) :: rest).flatten = y :: (ys ++ rest.flatten) := rfl
        rw [hflat]
        show (y :: (ys ++ rest.flatten)).take 16
              :: toBlocksAux f ((y :: (ys ++ rest.flatten)).drop 16)
            = (y :: ys) :: rest
        have hys : y :: (ys ++ rest.flatten) = (y :: ys) ++ rest.flatten := rfl
        rw [hys, List.take_left' hb, List.drop_left' hb]
        refine congrArg (List.cons (y :: ys)) (ih f (fun c hc => hlen c (by simp [hc])) ?_)
        have hlenf : ((y :: ys) :: rest).flatten.length
            = (y :: ys).length + rest.flatten.length := by
          rw [List.flatten_cons, List.length_append]
        omega

/-- CBC encryption of 16-byte blocks yields 16-byte blocks when the block
permutation preserves the block size. -/
theorem cbcEncryptBlocks_length (E : List Nat → List Nat)
    (hE : ∀ b, b.length = 16 → (E b).length = 16) :
    ∀ (bs : List (List Nat)) (prev : List Nat), prev.length = 16 →
    (∀ b ∈ bs, b.length = 16) →
    ∀ c ∈ cbcEncryptBlocks E prev bs, c.length = 16 := by
  intro bs
  induction bs with
  | nil =>
    intro prev _ _ c hc
    simp [cbcEncryptBlocks] at hc
  | cons b rest ih =>
    intro prev hprev hbs c hc
    have hb : b.length = 16 := hbs b (by simp)
    have hx : (xorBytes prev b).length = 16 := by
      rw [xorBytes_length, hprev, hb]
      exact Nat.min_self 16
    have hc1 : (E (xorBytes prev b)).length = 16 := hE _ hx
    simp only [cbcEncryptBlocks, List.mem_cons] at hc
    rcases hc with rfl | hc2
    · exact hc1
    · exact ih (E (xorBytes prev b)) hc1 (fun a ha => hbs a (by simp [ha])) c hc2

/-- CBC decryption inverts CBC encryption blockwise when the supplied block
permutations are mutually inverse on 16-byte blocks. -/
theorem cbcDecrypt_encrypt (E D : List Nat → List Nat)
    (hE : ∀ b, b.length = 16 → (E b).length = 16)
    (hDE : ∀ b, b.length = 16 → D (E b) = b) :
    ∀ (bs : List (List Nat)) (prev : List Nat), prev.length = 16 →
    (∀ b ∈ bs, b.length = 16) →
    cbcDecryptBlocks D prev (cbcEncryptBlocks E prev bs) = bs := by
  intro bs
  induction bs with
  | nil =>
    intro prev _ _
    simp [cbcEncryptBlocks, cbcDecryptBlocks]
  | cons b rest ih =>
    intro prev hprev hbs
    have hb : b.length = 16 := hbs b (by simp)
    have hx : (xorBytes prev b).length = 16 := by
      rw [xorBytes_length, hprev, hb]
      exact Nat.min_self 16
    simp only [cbcEncryptBlocks, cbcDecryptBlocks]
    rw [hDE _ hx, xorBytes_cancel prev b (by rw [hprev, hb])]
    exact congrArg (List.cons b)
      (ih (E (xorBytes prev b)) (hE _ hx) (fun a ha => hbs a (by simp [ha])))

/-- Concatenated 16-byte blocks have total length 16 times the count. -/
theorem flatten_blocks_length : ∀ (bs : List (List Nat)),
    (∀ b ∈ bs, b.length = 16) → bs.flatten.length = 16 * bs.length := by
  intro bs
  induction bs with
  | nil => intro _; simp
  | cons b rest ih =>
    intro h
    have hb : b.length = 16 := h b (by simp)
    simp only [List.flatten_cons, List.length_append, List.length_cons, hb,
      ih (fun c hc => h c (by simp [hc]))]
    ring

/-- C6: the cookie decryption round-trip — encrypting any plaintext with the
documented scheme (PKCS7 padding, AES-128-CBC under the derived key with the
16-space IV, v10 version marker) and then decrypting with decryptChromeValue
under the same key reproduces the plaintext; and every encrypted value whose
3-byte version marker is neither v10 nor v11 decrypts to null (none) rather
than throwing.  The AES-128 block permutation under the PBKDF2-derived key
and its inverse are the oracles E and D. -/
theorem decryptChromeValue_roundtrip_and_badtag (E D : List Nat → List Nat)
    (hE : ∀ b, b.length = 16 → (E b).length = 16)
    (hDE : ∀ b, b.length = 16 → D (E b) = b) :
    (∀ plain, decryptChromeValue D (encryptChromeValue E plain) = Option.some plain)
  ∧ (∀ ev, ev.take 3 ≠ v10Tag → ev.take 3 ≠ v11Tag →
      decryptChromeValue D ev = Option.none) := by
  constructor
  · intro plain
    have hiv : ivSpaces.length = 16 := by simp [ivSpaces]
    have hpadmod : (pkcs7Pad plain).length % 16 = 0 := pkcs7Pad_length_mod plain
    have hblocks := toBlocksAux_flatten (pkcs7Pad plain).length (pkcs7Pad plain)
      (Nat.le_refl _) hpadmod
    have hpbflat : (toBlocks (pkcs7Pad plain)).flatten = pkcs7Pad plain := hblocks.1
    have hpb16 : ∀ b ∈ toBlocks (pkcs7Pad plain), b.length = 16 := hblocks.2
    have hcb16 : ∀ c ∈ cbcEncryptBlocks E ivSpaces (toBlocks (pkcs7Pad plain)), c.length = 16 :=
      cbcEncryptBlocks_length E hE _ ivSpaces hiv hpb16
    set cipher := (cbcEncryptBlocks E ivSpaces (toBlocks (pkcs7Pad plain))).flatten with hcipher
    have hclen : cipher.length
        = 16 * (cbcEncryptBlocks E ivSpaces (toBlocks (pkcs7Pad plain))).length :=
      flatten_blocks_length _ hcb16
    have hpadpos : 1 ≤ (pkcs7Pad plain).length := by
      rw [pkcs7Pad_length]
      have hpp : 1 ≤ pkcs7PadLen plain.length := by
        unfold pkcs7PadLen
        omega
      omega
    have hpbne : toBlocks (pkcs7Pad plain) ≠ [] := by
      intro h0
      rw [h0] at hpbflat
      rw [← hpbflat] at hpadpos
      simp at hpadpos
    have hcbne : cbcEncryptBlocks E ivSpaces (toBlocks (pkcs7Pad plain)) ≠ [] := by
      cases hpb : toBlocks (pkcs7Pad plain) with
      | nil => exact absurd hpb hpbne
      | cons b bs => simp [cbcEncryptBlocks, hpb]
    have hclenpos : cipher.length ≠ 0 := by
      rw [hclen]
      have hp : 0 < (cbcEncryptBlocks E ivSpaces (toBlocks (pkcs7Pad plain))).length :=
        List.length_pos.mpr hcbne
      omega
    have hclenmod : cipher.length % 16 = 0 := by
      rw [hclen]
      omega
    have henc : encryptChromeValue E plain = v10Tag ++ cipher := rfl
    have h3 : v10Tag.length = 3 := rfl
    have hlen3 : ¬ (encryptChromeValue E plain).length < 3 := by
      rw [henc, List.length_append, h3]
      omega
    have htag : (encryptChromeValue E plain).take 3 = v10Tag := by
      rw [henc]
      exact List.take_left' h3
    have hdropc : (encryptChromeValue E plain).drop 3 = cipher := by
      rw [henc]
      exact List.drop_left' h3
    have htb : toBlocks cipher = cbcEncryptBlocks E ivSpaces (toBlocks (pkcs7Pad plain)) := by
      unfold toBlocks
      exact toBlocksAux_of_flatten _ cipher.length hcb16 (Nat.le_refl _)
    simp only [decryptChromeValue, htag, hdropc]
    rw [if_neg hlen3]
    rw [if_neg (by simp)]
    rw [if_pos ⟨hclenmod, hclenpos⟩]
    rw [htb, cbcDecrypt_encrypt E D hE hDE _ ivSpaces hiv hpb16, hpbflat]
    exact pkcs7Unpad_pad plain
  · intro ev h10 h11
    simp only [decryptChromeValue]
    by_cases hlt : ev.length < 3
    · rw [if_pos hlt]
    · rw [if_neg hlt]
      rw [if_pos ⟨h10, h11⟩]

/-- Witness for C6 with the identity block permutation: a two-byte plaintext
survives the round-trip, and a value with a corrupted version marker
decrypts to none. -/
theorem decryptChromeValue_roundtrip_witness :
    decryptChromeValue (fun b => b) (encryptChromeValue (fun b => b) [104, 105])
      = Option.some [104, 105]
  ∧ decryptChromeValue (fun b => b) [0, 0, 0] = Option.none :=
  ⟨(decryptChromeValue_roundtrip_and_badtag (fun b => b) (fun b => b)
      (fun _ h => h) (fun _ _ => rfl)).1 [104, 105],
   (decryptChromeValue_roundtrip_and_badtag (fun b => b) (fun b => b)
      (fun _ h => h) (fun _ _ => rfl)).2 [0, 0, 0] (by decide) (by decide)⟩

end GrokCli
